import Mathlib

/-!
Shallow embedding of the `passkeys-wrapper` JavaScript library
(`src/core-passkeys-wrapper.js`, `src/mastercard-config.js`).

JavaScript conventions modelled here:
  * a possibly-`undefined` string value is `Option String` (`none` = absent);
  * `a || b` on strings is `jsOrStr` (`undefined` and `""` are falsy);
  * `!s` truthiness of a string is `jsTruthy`;
  * `String.prototype.includes` is `jsIncludes`;
  * the effect of `fetch` is an oracle `String → FetchOutcome α` given to the
    Core-API client, and the URL actually requested is returned alongside the
    result so that "no network request was made" is expressible;
  * the Mastercard SDK is an oracle as well, and every wrapper entry point
    reports whether the SDK was invoked.
-/

namespace PasskeysWrapper

/-- JavaScript `a || b` for a possibly-undefined string `a`:
`undefined` and the empty string are falsy. -/
def jsOrStr (v : Option String) (d : String) : String :=
  match v with
  | none => d
  | some s => if s = "" then d else s

/-- JavaScript truthiness of a possibly-undefined string. -/
def jsTruthy (v : Option String) : Bool :=
  match v with
  | none => false
  | some s => if s = "" then false else true

/-- `takesAt big small` : `small` is a leading segment of `big`. -/
def takesAt : List Char → List Char → Bool
  | _, [] => true
  | [], _ :: _ => false
  | c :: cs, d :: ds => c == d && takesAt cs ds

/-- `hasSub big small` : `small` occurs contiguously inside `big`. -/
def hasSub : List Char → List Char → Bool
  | [], small => takesAt [] small
  | c :: cs, small => takesAt (c :: cs) small || hasSub cs small

/-- JavaScript `s.includes(sub)`. -/
def jsIncludes (s sub : String) : Bool :=
  hasSub s.data sub.data

/-- Drop leading whitespace characters. -/
def dropLeadingWs : List Char → List Char
  | [] => []
  | c :: cs => if c.isWhitespace then dropLeadingWs cs else c :: cs

/-- JavaScript `s.trim()`: strip whitespace from both ends. -/
def jsTrim (s : String) : String :=
  String.mk (dropLeadingWs (dropLeadingWs s.data).reverse).reverse

/-- The library's single error class (`class CorePasskeysError extends Error`):
a name (always `"CorePasskeysError"`), a message and a machine-readable code. -/
structure CorePasskeysError where
  name : String
  message : String
  code : String
deriving Repr, DecidableEq

/-- The `CorePasskeysError` constructor: `code` defaults to `"UNKNOWN_ERROR"`
when the call site omits it. -/
def mkCorePasskeysError (message : String) (code : Option String) : CorePasskeysError :=
  { name := "CorePasskeysError"
    message := message
    code := code.getD "UNKNOWN_ERROR" }

/-- A thrown JavaScript value: either the library's `CorePasskeysError` or a
plain `Error` carrying only a message. -/
inductive JsError where
  | core (e : CorePasskeysError)
  | generic (message : String)
deriving Repr, DecidableEq

/-- The two-entry lookup object of `mapAuthMethodType`
(identical in `core-passkeys-wrapper.js` and `mastercard-config.js`). -/
def typeMap (k : String) : Option String :=
  if k = "3ds" then some "3DS"
  else if k = "passkey" then some "MANAGED_AUTHENTICATION"
  else none

/-- `mapAuthMethodType(type)`: `typeMap[type] || '3DS'`. -/
def mapAuthMethodType (ty : Option String) : String :=
  jsOrStr (ty.bind typeMap) "3DS"

/-- The three-entry lookup object of `mapAuthReason`. -/
def reasonMap (k : String) : Option String :=
  if k = "login" then some "TRANSACTION_AUTHENTICATION"
  else if k = "payment" then some "TRANSACTION_AUTHENTICATION"
  else if k = "enroll" then some "ENROL_FINANCIAL_INSTRUMENT"
  else none

/-- `mapAuthReason(reason)`: `reasonMap[reason] || 'TRANSACTION_AUTHENTICATION'`. -/
def mapAuthReason (reason : Option String) : String :=
  jsOrStr (reason.bind reasonMap) "TRANSACTION_AUTHENTICATION"

/-- `sdkError.message?.includes(sub)` where the message may be `undefined`. -/
def optIncludes (msg : Option String) (sub : String) : Bool :=
  match msg with
  | none => false
  | some m => jsIncludes m sub

/-- The `message`/`code` pair picked by the if/else-if chain of
`translateSdkError`, starting from the defaults
`('Authentication failed', 'AUTH_FAILED')`. -/
def sdkErrorClassification (msg : Option String) : String × String :=
  if optIncludes msg "network" || optIncludes msg "fetch" then
    ("Network error occurred during authentication.", "NETWORK_ERROR")
  else if optIncludes msg "timeout" then
    ("Authentication request timed out.", "TIMEOUT")
  else if optIncludes msg "invalid" || optIncludes msg "validation" then
    ("Invalid request data provided.", "INVALID_INPUT")
  else
    ("Authentication failed", "AUTH_FAILED")

/-- A JavaScript template literal renders an absent message as `"undefined"`. -/
def jsRender (msg : Option String) : String :=
  match msg with
  | some m => m
  | none => "undefined"

/-- `translateSdkError(sdkError)` : substring classification of the SDK error
message into a `CorePasskeysError` built as
`new CorePasskeysError(message + ' (Original: ' + sdkError.message + ')', code)`. -/
def translateSdkError (msg : Option String) : CorePasskeysError :=
  mkCorePasskeysError
    ((sdkErrorClassification msg).1 ++ " (Original: " ++ jsRender msg ++ ")")
    (some (sdkErrorClassification msg).2)

/-- Input shape of the second-variant `mapBillingAddress(billingAddress)`. -/
structure BillingAddressInput where
  line1 : Option String
  line2 : Option String
  city : Option String
  state : Option String
  zip : Option String
  country : Option String
deriving Repr, DecidableEq

/-- Output shape of the second-variant `mapBillingAddress`. -/
structure BillingAddressOut where
  line1 : String
  line2 : String
  city : String
  state : String
  zip : String
  countryCode : String
deriving Repr, DecidableEq

/-- Second-variant `mapBillingAddress(billingAddress)`: every field is copied
with an empty-string default (`billingAddress?.field || ''`). -/
def mapBillingAddress (billingAddress : Option BillingAddressInput) : BillingAddressOut :=
  { line1 := jsOrStr (billingAddress.bind BillingAddressInput.line1) ""
    line2 := jsOrStr (billingAddress.bind BillingAddressInput.line2) ""
    city := jsOrStr (billingAddress.bind BillingAddressInput.city) ""
    state := jsOrStr (billingAddress.bind BillingAddressInput.state) ""
    zip := jsOrStr (billingAddress.bind BillingAddressInput.zip) ""
    countryCode := jsOrStr (billingAddress.bind BillingAddressInput.country) "" }

/-- Nested address object of the first-variant customer
(`customer.billingAddress` / `customer.address`). -/
structure AddressV1 where
  line1 : Option String
  line2 : Option String
  state : Option String
  zip : Option String
  postalCode : Option String
  countryCode : Option String
deriving Repr, DecidableEq

/-- Input shape of the first-variant `mapBillingAddress(customer)`. -/
structure Customer where
  billingName : Option String
  firstName : Option String
  lastName : Option String
  billingAddress : Option AddressV1
  address : Option AddressV1
deriving Repr, DecidableEq

/-- Output shape of the first-variant `mapBillingAddress`. -/
structure BillingAddressOutV1 where
  name : String
  line1 : String
  line2 : String
  state : String
  zip : String
  countryCode : String
deriving Repr, DecidableEq

/-- First-variant `mapBillingAddress(customer)` with its fallback chains and
the `'US'` country-code default. -/
def mapBillingAddressV1 (customer : Option Customer) : BillingAddressOutV1 :=
  { name := jsOrStr (customer.bind Customer.billingName)
      (jsTrim (jsOrStr (customer.bind Customer.firstName) "" ++ " " ++
        jsOrStr (customer.bind Customer.lastName) ""))
    line1 := jsOrStr ((customer.bind Customer.billingAddress).bind AddressV1.line1)
      (jsOrStr ((customer.bind Customer.address).bind AddressV1.line1) "")
    line2 := jsOrStr ((customer.bind Customer.billingAddress).bind AddressV1.line2)
      (jsOrStr ((customer.bind Customer.address).bind AddressV1.line2) "")
    state := jsOrStr ((customer.bind Customer.billingAddress).bind AddressV1.state)
      (jsOrStr ((customer.bind Customer.address).bind AddressV1.state) "")
    zip := jsOrStr ((customer.bind Customer.billingAddress).bind AddressV1.zip)
      (jsOrStr ((customer.bind Customer.address).bind AddressV1.zip)
        (jsOrStr ((customer.bind Customer.billingAddress).bind AddressV1.postalCode)
          (jsOrStr ((customer.bind Customer.address).bind AddressV1.postalCode) "")))
    countryCode := jsOrStr ((customer.bind Customer.billingAddress).bind AddressV1.countryCode)
      (jsOrStr ((customer.bind Customer.address).bind AddressV1.countryCode) "US") }

/-- `coreData.merchantInfo` in the second variant. -/
structure MerchantInfo where
  name : Option String
  web : Option String
  locale : Option String
deriving Repr, DecidableEq

/-- `coreData.amount`: `.value` is dereferenced unconditionally, `.currency`
is passed through. -/
structure Amount where
  value : String
  currency : Option String
deriving Repr, DecidableEq

/-- The `coreData` consumed by the second-variant `authenticate` after the
spread-merge in `executeAuthenticate`. -/
structure CoreData where
  unifiedServiceId : Option String
  unifiedClientId : Option String
  unifiedTokenId : Option String
  merchantInfo : Option MerchantInfo
  billingAddress : Option BillingAddressInput
  authMethod : Option String
  authReason : Option String
  amount : Option Amount
  acquirerMerchantId : Option String
  acquirerBIN : Option String
  merchantCategoryCode : Option String
  merchantCountryCode : Option String
deriving Repr, DecidableEq

/-- `accountReference` of the Mastercard payload. -/
structure AccountReference where
  srcDigitalCardId : Option String
deriving Repr, DecidableEq

/-- `authenticationMethod` of the Mastercard payload. -/
structure AuthenticationMethod where
  authenticationMethodType : String
  authenticationSubject : String
deriving Repr, DecidableEq

/-- `dpaData` of the Mastercard payload. -/
structure DpaData where
  dpaName : Option String
  dpaUri : Option String
deriving Repr, DecidableEq

/-- `transactionAmount` of the Mastercard payload. -/
structure TransactionAmount where
  transactionAmount : String
  transactionCurrencyCode : Option String
deriving Repr, DecidableEq

/-- `threeDsInputData` of the Mastercard payload. -/
structure ThreeDsInputData where
  billingAddress : BillingAddressOut
deriving Repr, DecidableEq

/-- `dpaTransactionOptions` of the Mastercard payload. -/
structure DpaTransactionOptions where
  transactionAmount : TransactionAmount
  dpaLocale : Option String
  threeDsInputData : ThreeDsInputData
  merchantCategoryCode : Option String
  merchantCountryCode : Option String
deriving Repr, DecidableEq

/-- `authenticationContext` of the Mastercard payload. -/
structure AuthenticationContext where
  authenticationReasons : List String
  acquirerMerchantId : Option String
  acquirerBIN : Option String
  dpaData : DpaData
  dpaTransactionOptions : DpaTransactionOptions
deriving Repr, DecidableEq

/-- The translated payload handed to `sdk.authenticate`. -/
structure MastercardPayload where
  srcCorrelationId : String
  serviceId : Option String
  srcClientId : Option String
  traceId : String
  accountReference : AccountReference
  authenticationMethod : AuthenticationMethod
  authenticationContext : AuthenticationContext
deriving Repr, DecidableEq

/-- The payload construction inside the second-variant `authenticate`.  The two
freshly generated UUIDs are passed in (`generateUUID()` is a random source). -/
def buildMastercardPayload (uuid1 uuid2 : String) (d : CoreData) (amt : Amount) :
    MastercardPayload :=
  { srcCorrelationId := uuid1
    serviceId := d.unifiedServiceId
    srcClientId := d.unifiedClientId
    traceId := uuid2
    accountReference := { srcDigitalCardId := d.unifiedTokenId }
    authenticationMethod :=
      { authenticationMethodType := mapAuthMethodType d.authMethod
        authenticationSubject := "CARDHOLDER" }
    authenticationContext :=
      { authenticationReasons := [mapAuthReason d.authReason]
        acquirerMerchantId := d.acquirerMerchantId
        acquirerBIN := d.acquirerBIN
        dpaData :=
          { dpaName := d.merchantInfo.bind MerchantInfo.name
            dpaUri := d.merchantInfo.bind MerchantInfo.web }
        dpaTransactionOptions :=
          { transactionAmount :=
              { transactionAmount := amt.value
                transactionCurrencyCode := amt.currency }
            dpaLocale := d.merchantInfo.bind MerchantInfo.locale
            threeDsInputData := { billingAddress := mapBillingAddress d.billingAddress }
            merchantCategoryCode := d.merchantCategoryCode
            merchantCountryCode := d.merchantCountryCode } } }

/-- The raw SDK response fields read by the second-variant
`translateSdkResponse`; each is possibly absent. -/
structure SdkResponse where
  assuranceData : Option String
  authenticationStatus : Option String
  authenticationResult : Option String
  srcCorrelationId : Option String
deriving Repr, DecidableEq

/-- The Core-friendly response built by the second-variant
`translateSdkResponse`. -/
structure CoreResponse where
  assuranceData : Option String
  authenticationStatus : Option String
  authenticationResult : Option String
  srcCorrelationId : Option String
deriving Repr, DecidableEq

/-- Second-variant `translateSdkResponse(sdkResponse)`. -/
def translateSdkResponse (r : SdkResponse) : CoreResponse :=
  { assuranceData := r.assuranceData
    authenticationStatus := r.authenticationStatus
    authenticationResult := r.authenticationResult
    srcCorrelationId := r.srcCorrelationId }

/-- Second-variant `authenticate(coreData)`.

`isInit` and `sdk` are the module-level `isInitialized` and `_checkoutSdk`;
`sdkAuth` is the external `sdk.authenticate` oracle, failing with the
(possibly absent) message of the rejection.  The second component of the
result records whether any SDK method was invoked. -/
def authenticate (σ : Type) (isInit : Bool) (sdk : Option σ)
    (sdkAuth : σ → MastercardPayload → Except (Option String) SdkResponse)
    (uuid1 uuid2 : String) (coreData : CoreData) :
    Except JsError CoreResponse × Bool :=
  if !isInit then
    (Except.error (JsError.core (mkCorePasskeysError
      "CorePasskeysWrapper not initialized. Please call init() first." none)), false)
  else
    match sdk with
    | none =>
        (Except.error (JsError.generic
          "Mastercard SDK not initialized. Call init() first."), false)
    | some s =>
        match coreData.amount with
        | none =>
            (Except.error (JsError.generic
              "TypeError: cannot read properties of undefined (reading value)"), false)
        | some amt =>
            match sdkAuth s (buildMastercardPayload uuid1 uuid2 coreData amt) with
            | Except.ok resp => (Except.ok (translateSdkResponse resp), true)
            | Except.error msg => (Except.error (JsError.core (translateSdkError msg)), true)

/-- Outcome of the single `fetch` performed by `getTokenBrandInfo`: a success
response whose JSON body parsed to `body`, a response with `ok` false
(carrying `status` and `statusText`), or a transport-level rejection. -/
inductive FetchOutcome (α : Type) where
  | success (body : α)
  | httpFailure (status : Nat) (statusText : String)
  | transportFailure (reason : String)
deriving Repr, DecidableEq

/-- The `switch (_environment)` selecting the Core API base URL inside
`getTokenBrandInfo` (with `local`/`development` falling through together and
`sandbox` sharing the `default` arm). -/
def coreApiBaseUrl (env : String) : String :=
  if env = "local" then "http://localhost:18080"
  else if env = "development" then "http://localhost:18080"
  else if env = "production" then "https://tr-tsp-test.gtp-seglan.com"
  else "https://tr-tsp-test.gtp-seglan.com"

/-- The parameters object of `getTokenBrandInfo`. -/
structure TokenBrandParams where
  managerCode : Option String
  merchantCode : Option String
  tokenCode : Option String
deriving Repr, DecidableEq

/-- The full request URL constructed by `getTokenBrandInfo`. -/
def coreApiUrl (env mgr mer tok : String) : String :=
  coreApiBaseUrl env ++ "/tr-tsp-api-core/v1/private/manager/" ++ mgr ++
    "/merchant/" ++ mer ++ "/token/" ++ tok ++ "/brand-info"

/-- The message of the `Error` thrown on a non-`ok` response, after wrapping by
the `catch` block of `getTokenBrandInfo`. -/
def coreApiHttpErrorMessage (status : Nat) (statusText : String) : String :=
  "Failed to fetch token information: " ++
    ("Core API request failed with status " ++ (toString status ++ (": " ++ statusText)))

/-- The message of the error thrown on a transport failure, after wrapping by
the `catch` block of `getTokenBrandInfo`. -/
def coreApiTransportErrorMessage (reason : String) : String :=
  "Failed to fetch token information: " ++ reason

/-- `getTokenBrandInfo(params)` over a `fetch` oracle `net`.  Returns the
result together with the URL actually requested (`none` when validation fails
before `fetch` is reached). -/
def getTokenBrandInfo (α : Type) (env : String) (p : TokenBrandParams)
    (net : String → FetchOutcome α) :
    Except CorePasskeysError α × Option String :=
  if !jsTruthy p.managerCode || !jsTruthy p.merchantCode || !jsTruthy p.tokenCode then
    (Except.error (mkCorePasskeysError
      "Missing required parameters: managerCode, merchantCode, and tokenCode are all required."
      (some "INVALID_INPUT")), none)
  else
    match net (coreApiUrl env (p.managerCode.getD "") (p.merchantCode.getD "")
        (p.tokenCode.getD "")) with
    | FetchOutcome.success body =>
        (Except.ok body,
          some (coreApiUrl env (p.managerCode.getD "") (p.merchantCode.getD "")
            (p.tokenCode.getD "")))
    | FetchOutcome.httpFailure status statusText =>
        (Except.error (mkCorePasskeysError
          (coreApiHttpErrorMessage status statusText) (some "CORE_API_ERROR")),
          some (coreApiUrl env (p.managerCode.getD "") (p.merchantCode.getD "")
            (p.tokenCode.getD "")))
    | FetchOutcome.transportFailure reason =>
        (Except.error (mkCorePasskeysError
          (coreApiTransportErrorMessage reason) (some "CORE_API_ERROR")),
          some (coreApiUrl env (p.managerCode.getD "") (p.merchantCode.getD "")
            (p.tokenCode.getD "")))

/-- The module-level mutable state of the second-variant wrapper:
`isInitialized`, `_checkoutSdk` and `_environment`. -/
structure WrapperState (σ : Type) where
  isInitialized : Bool
  checkoutSdk : Option σ
  environment : String
deriving Repr, DecidableEq

/-- The state at module load: flag unset, no cached SDK, `_environment`
defaulted to `'sandbox'`. -/
def initialWrapperState (σ : Type) : WrapperState σ :=
  { isInitialized := false, checkoutSdk := none, environment := "sandbox" }

/-- The browser-side facts `initMastercardSdk` interacts with: the current
`window.AUTHSDK_MASTERCARD` global, and what a dynamic script load would
produce — an `onerror` rejection, or a resolution after which the global holds
the given (possibly still absent) handle. -/
structure SdkWorld (σ : Type) where
  windowSdk : Option σ
  loadOutcome : Except String (Option σ)
deriving Repr

/-- `initMastercardSdk(config)`: returns the new `_checkoutSdk` value, given
its current value `cur`.  A cached handle is returned as is; otherwise the
global is adopted, loading the script first when the global is absent. -/
def initMastercardSdk (σ : Type) (world : SdkWorld σ) (cur : Option σ) :
    Except String (Option σ) :=
  match cur with
  | some s => Except.ok (some s)
  | none =>
      match world.windowSdk with
      | some w => Except.ok (some w)
      | none =>
          match world.loadOutcome with
          | Except.error e => Except.error e
          | Except.ok w => Except.ok w

/-- The configuration object accepted by `init`. -/
structure WrapperConfig where
  environment : Option String
  locale : Option String
deriving Repr, DecidableEq

/-- `init(config)`: a no-op (with a warning) when already initialized;
otherwise stores `_environment = config.environment || 'sandbox'`, runs
`initMastercardSdk`, and sets `isInitialized = true` only after it succeeds.
Returns the outcome together with the state the module variables are left in. -/
def init (σ : Type) (world : SdkWorld σ) (st : WrapperState σ) (config : WrapperConfig) :
    Except String Unit × WrapperState σ :=
  if st.isInitialized then
    (Except.ok (), st)
  else
    let st1 := { st with environment := jsOrStr config.environment "sandbox" }
    match initMastercardSdk σ world st1.checkoutSdk with
    | Except.error e => (Except.error e, st1)
    | Except.ok sdk => (Except.ok (), { st1 with checkoutSdk := sdk, isInitialized := true })

/-- `isReady()`. -/
def isReady (σ : Type) (st : WrapperState σ) : Bool :=
  st.isInitialized

/-- The `params` object of `executeAuthenticate`. -/
structure ExecParams where
  managerCode : Option String
  merchantCode : Option String
  tokenCode : Option String
  authMethod : Option String
  authReason : Option String
  amount : Option Amount
  acquirerMerchantId : Option String
  acquirerBIN : Option String
  merchantCategoryCode : Option String
  merchantCountryCode : Option String
deriving Repr, DecidableEq

/-- What `executeAuthenticate` did on its way to a result: whether `init` was
called, whether `getTokenBrandInfo` was invoked, the URL it fetched (if any),
and whether the SDK was invoked. -/
structure ExecTrace where
  initCalled : Bool
  coreApiCalled : Bool
  fetchUrl : Option String
  sdkCalled : Bool
deriving Repr, DecidableEq

/-- The spread-merge `{...coreData, authMethod: params.authMethod, ...}` in
step 3 of `executeAuthenticate`: the explicit keys override unconditionally. -/
def mergeCoreData (coreData : CoreData) (params : ExecParams) : CoreData :=
  { coreData with
    authMethod := params.authMethod
    authReason := params.authReason
    amount := params.amount
    acquirerMerchantId := params.acquirerMerchantId
    acquirerBIN := params.acquirerBIN
    merchantCategoryCode := params.merchantCategoryCode
    merchantCountryCode := params.merchantCountryCode }

/-- Steps 2 and 3 of `executeAuthenticate`, entered only after the
initialize-if-needed step succeeded. -/
def fetchThenAuthenticate (σ : Type) (net : String → FetchOutcome CoreData)
    (sdkAuth : σ → MastercardPayload → Except (Option String) SdkResponse)
    (uuid1 uuid2 : String) (st : WrapperState σ) (params : ExecParams)
    (initCalled : Bool) :
    Except JsError CoreResponse × WrapperState σ × ExecTrace :=
  match getTokenBrandInfo CoreData st.environment
    { managerCode := params.managerCode
      merchantCode := params.merchantCode
      tokenCode := params.tokenCode } net with
  | (Except.error e, url) =>
      (Except.error (JsError.core e), st,
        { initCalled := initCalled, coreApiCalled := true, fetchUrl := url,
          sdkCalled := false })
  | (Except.ok coreData, url) =>
      match authenticate σ st.isInitialized st.checkoutSdk sdkAuth uuid1 uuid2
        (mergeCoreData coreData params) with
      | (res, called) =>
          (res, st,
            { initCalled := initCalled, coreApiCalled := true, fetchUrl := url,
              sdkCalled := called })

/-- `executeAuthenticate(params, config)`: initialize if needed (a failure
there propagates unchanged and ends the flow), then fetch `coreData` from the
Core API, then authenticate with the merged data.  Every failure is rethrown
unchanged by the surrounding `catch`. -/
def executeAuthenticate (σ : Type) (world : SdkWorld σ)
    (net : String → FetchOutcome CoreData)
    (sdkAuth : σ → MastercardPayload → Except (Option String) SdkResponse)
    (uuid1 uuid2 : String) (st : WrapperState σ) (params : ExecParams)
    (config : WrapperConfig) :
    Except JsError CoreResponse × WrapperState σ × ExecTrace :=
  if st.isInitialized then
    fetchThenAuthenticate σ net sdkAuth uuid1 uuid2 st params false
  else
    match init σ world st config with
    | (Except.error e, st1) =>
        (Except.error (JsError.generic e), st1,
          { initCalled := true, coreApiCalled := false, fetchUrl := none,
            sdkCalled := false })
    | (Except.ok _, st1) =>
        fetchThenAuthenticate σ net sdkAuth uuid1 uuid2 st1 params true

/-! ### Substring lemmas for `jsIncludes` -/

theorem hasSub_nil_right (l : List Char) : hasSub l [] = true := by
  cases l <;> simp [hasSub, takesAt]

theorem takesAt_append_self (small rest : List Char) : takesAt (small ++ rest) small = true := by
  induction small with
  | nil => simp [takesAt]
  | cons c cs ih => simp [takesAt, ih]

theorem hasSub_self_append (small rest : List Char) : hasSub (small ++ rest) small = true := by
  cases small with
  | nil => exact hasSub_nil_right rest
  | cons c cs => simp [hasSub, takesAt, takesAt_append_self]

theorem hasSub_append_of_mid (pre small rest : List Char) :
    hasSub (pre ++ (small ++ rest)) small = true := by
  induction pre with
  | nil => simpa using hasSub_self_append small rest
  | cons c cs ih => simp [hasSub, ih]

theorem jsIncludes_of_data_eq (s sub : String) (pre post : List Char)
    (h : s.data = pre ++ (sub.data ++ post)) : jsIncludes s sub = true := by
  unfold jsIncludes
  rw [h]
  exact hasSub_append_of_mid pre sub.data post

/-- The wrapped HTTP-failure message of `getTokenBrandInfo` mentions the
numeric status code. -/
theorem coreApiHttpErrorMessage_has_status (status : Nat) (statusText : String) :
    jsIncludes (coreApiHttpErrorMessage status statusText) (toString status) = true := by
  apply jsIncludes_of_data_eq _ _
    (("Failed to fetch token information: ").data ++
      ("Core API request failed with status ").data)
    ((": ").data ++ statusText.data)
  simp [coreApiHttpErrorMessage, String.data_append, List.append_assoc]

/-- The wrapped HTTP-failure message of `getTokenBrandInfo` mentions the
status text. -/
theorem coreApiHttpErrorMessage_has_statusText (status : Nat) (statusText : String) :
    jsIncludes (coreApiHttpErrorMessage status statusText) statusText = true := by
  apply jsIncludes_of_data_eq _ _
    (("Failed to fetch token information: ").data ++
      (("Core API request failed with status ").data ++
        ((toString status).data ++ (": ").data)))
    []
  simp [coreApiHttpErrorMessage, String.data_append, List.append_assoc]

/-- The wrapped transport-failure message of `getTokenBrandInfo` mentions the
underlying failure reason. -/
theorem coreApiTransportErrorMessage_has_reason (reason : String) :
    jsIncludes (coreApiTransportErrorMessage reason) reason = true := by
  apply jsIncludes_of_data_eq _ _ ("Failed to fetch token information: ").data []
  simp [coreApiTransportErrorMessage, String.data_append]

/-! ### Claim theorems -/

/-- C4: `mapAuthMethodType` returns `"3DS"` for input `"3ds"`,
`"MANAGED_AUTHENTICATION"` for input `"passkey"`, and `"3DS"` for every other
input, absent/undefined input included. -/
theorem claim_C4_mapAuthMethodType (t : Option String) :
    mapAuthMethodType (some "3ds") = "3DS" ∧
    mapAuthMethodType (some "passkey") = "MANAGED_AUTHENTICATION" ∧
    mapAuthMethodType none = "3DS" ∧
    (t ≠ some "3ds" → t ≠ some "passkey" → mapAuthMethodType t = "3DS") := by
  refine ⟨rfl, rfl, rfl, ?_⟩
  intro h1 h2
  cases t with
  | none => rfl
  | some s =>
      have hs1 : s ≠ "3ds" := fun h => h1 (by rw [h])
      have hs2 : s ≠ "passkey" := fun h => h2 (by rw [h])
      simp [mapAuthMethodType, typeMap, jsOrStr, hs1, hs2]

theorem claim_C4_mapAuthMethodType_witness :
    mapAuthMethodType (some "webauthn") = "3DS" :=
  (claim_C4_mapAuthMethodType (some "webauthn")).2.2.2 (by decide) (by decide)

/-- C2: whenever any of `managerCode`, `merchantCode`, `tokenCode` is empty or
absent, `getTokenBrandInfo` fails with a `CorePasskeysError` of code
`INVALID_INPUT` and the `fetch` oracle is never consulted (no URL requested). -/
theorem claim_C2_getTokenBrandInfo_invalid_input (α : Type) (env : String)
    (p : TokenBrandParams) (net : String → FetchOutcome α)
    (h : jsTruthy p.managerCode = false ∨ jsTruthy p.merchantCode = false ∨
      jsTruthy p.tokenCode = false) :
    getTokenBrandInfo α env p net =
      (Except.error
        { name := "CorePasskeysError"
          message := "Missing required parameters: managerCode, merchantCode, and tokenCode are all required."
          code := "INVALID_INPUT" }, none) := by
  rcases h with h | h | h <;>
    simp [getTokenBrandInfo, h, mkCorePasskeysError]

theorem claim_C2_getTokenBrandInfo_invalid_input_witness :
    getTokenBrandInfo Unit "sandbox"
      { managerCode := some "azul", merchantCode := some "", tokenCode := none }
      (fun _ => FetchOutcome.transportFailure "unreachable") =
      (Except.error
        { name := "CorePasskeysError"
          message := "Missing required parameters: managerCode, merchantCode, and tokenCode are all required."
          code := "INVALID_INPUT" }, none) :=
  claim_C2_getTokenBrandInfo_invalid_input Unit "sandbox" _ _ (Or.inr (Or.inl rfl))

/-- C5: the base URL of `getTokenBrandInfo` is a three-way branch on the
stored environment: `local`/`development` give the fixed local endpoint,
`production` its fixed endpoint, anything else (in particular `sandbox`) the
fixed sandbox endpoint; the production and sandbox endpoints are the same
string, and the URL requested by `getTokenBrandInfo` is built from that base. -/
theorem claim_C5_base_url_selection (α : Type) (env mgr mer tok : String)
    (net : String → FetchOutcome α)
    (hm : mgr ≠ "") (he : mer ≠ "") (ht : tok ≠ "") :
    (env = "local" ∨ env = "development" → coreApiBaseUrl env = "http://localhost:18080") ∧
    coreApiBaseUrl "production" = "https://tr-tsp-test.gtp-seglan.com" ∧
    (env ≠ "local" → env ≠ "development" → env ≠ "production" →
      coreApiBaseUrl env = "https://tr-tsp-test.gtp-seglan.com") ∧
    coreApiBaseUrl "production" = coreApiBaseUrl "sandbox" ∧
    coreApiUrl env mgr mer tok =
      coreApiBaseUrl env ++ "/tr-tsp-api-core/v1/private/manager/" ++ mgr ++
        "/merchant/" ++ mer ++ "/token/" ++ tok ++ "/brand-info" ∧
    (getTokenBrandInfo α env
        { managerCode := some mgr, merchantCode := some mer, tokenCode := some tok } net).2 =
      some (coreApiUrl env mgr mer tok) := by
  refine ⟨?_, rfl, ?_, rfl, rfl, ?_⟩
  · rintro (rfl | rfl) <;> rfl
  · intro h1 h2 h3
    simp [coreApiBaseUrl, h1, h2, h3]
  · have hc : (!jsTruthy (some mgr) || !jsTruthy (some mer) || !jsTruthy (some tok)) = false := by
      simp [jsTruthy, hm, he, ht]
    cases hnet : net (coreApiUrl env mgr mer tok) <;>
      simp [getTokenBrandInfo, hc, hnet]

theorem claim_C5_base_url_selection_witness :
    coreApiBaseUrl "staging" = "https://tr-tsp-test.gtp-seglan.com" ∧
    (getTokenBrandInfo Unit "staging"
        { managerCode := some "azul", merchantCode := some "m-1", tokenCode := some "t-1" }
        (fun _ => FetchOutcome.success ())).2 =
      some (coreApiUrl "staging" "azul" "m-1" "t-1") := by
  have h := claim_C5_base_url_selection Unit "staging" "azul" "m-1" "t-1"
    (fun _ => FetchOutcome.success ()) (by decide) (by decide) (by decide)
  exact ⟨h.2.2.1 (by decide) (by decide) (by decide), h.2.2.2.2.2⟩

/-- C3: a non-`ok` HTTP response makes `getTokenBrandInfo` fail with a
`CorePasskeysError` of code `CORE_API_ERROR` whose message contains the
numeric status code and the status text; a transport failure yields the same
code with the underlying reason contained in the message. -/
theorem claim_C3_core_api_error_translation (α : Type)
    (env mgr mer tok statusText reason : String) (status : Nat)
    (hm : mgr ≠ "") (he : mer ≠ "") (ht : tok ≠ "") :
    (∃ e, (getTokenBrandInfo α env
        { managerCode := some mgr, merchantCode := some mer, tokenCode := some tok }
        (fun _ => FetchOutcome.httpFailure status statusText)).1 = Except.error e ∧
      e.name = "CorePasskeysError" ∧ e.code = "CORE_API_ERROR" ∧
      jsIncludes e.message (toString status) = true ∧
      jsIncludes e.message statusText = true) ∧
    (∃ e, (getTokenBrandInfo α env
        { managerCode := some mgr, merchantCode := some mer, tokenCode := some tok }
        (fun _ => FetchOutcome.transportFailure reason)).1 = Except.error e ∧
      e.name = "CorePasskeysError" ∧ e.code = "CORE_API_ERROR" ∧
      jsIncludes e.message reason = true) := by
  have hc : (!jsTruthy (some mgr) || !jsTruthy (some mer) || !jsTruthy (some tok)) = false := by
    simp [jsTruthy, hm, he, ht]
  constructor
  · refine ⟨mkCorePasskeysError (coreApiHttpErrorMessage status statusText)
      (some "CORE_API_ERROR"), ?_, rfl, rfl, ?_, ?_⟩
    · simp [getTokenBrandInfo, hc]
    · exact coreApiHttpErrorMessage_has_status status statusText
    · exact coreApiHttpErrorMessage_has_statusText status statusText
  · refine ⟨mkCorePasskeysError (coreApiTransportErrorMessage reason)
      (some "CORE_API_ERROR"), ?_, rfl, rfl, ?_⟩
    · simp [getTokenBrandInfo, hc]
    · exact coreApiTransportErrorMessage_has_reason reason

theorem claim_C3_core_api_error_translation_witness :
    ∃ e, (getTokenBrandInfo Unit "sandbox"
        { managerCode := some "azul", merchantCode := some "m-1", tokenCode := some "t-1" }
        (fun _ => FetchOutcome.httpFailure 404 "Not Found")).1 = Except.error e ∧
      e.name = "CorePasskeysError" ∧ e.code = "CORE_API_ERROR" ∧
      jsIncludes e.message (toString 404) = true ∧
      jsIncludes e.message "Not Found" = true :=
  (claim_C3_core_api_error_translation Unit "sandbox" "azul" "m-1" "t-1" "Not Found" "x" 404
    (by decide) (by decide) (by decide)).1

/-- Whatever branch of the classification fires, the original SDK message
occurs verbatim inside the translated message. -/
theorem translateSdkError_message_preserved (m : String) :
    jsIncludes (translateSdkError (some m)).message m = true := by
  apply jsIncludes_of_data_eq _ _
    (((sdkErrorClassification (some m)).1).data ++ (" (Original: ").data) ((")").data)
  simp [translateSdkError, mkCorePasskeysError, jsRender, String.data_append,
    List.append_assoc]

/-- C6: `translateSdkError` classifies an SDK error by substrings of its
message — `NETWORK_ERROR` when it mentions `network` or `fetch`, else
`TIMEOUT` when it mentions `timeout`, else `INVALID_INPUT` when it mentions
`invalid` or `validation`, else `AUTH_FAILED` — and in every case the original
message is preserved, appended to the human-readable classification message. -/
theorem claim_C6_translateSdkError_classification (m : String) :
    ((jsIncludes m "network" = true ∨ jsIncludes m "fetch" = true) →
      (translateSdkError (some m)).code = "NETWORK_ERROR" ∧
      (translateSdkError (some m)).message =
        "Network error occurred during authentication." ++ " (Original: " ++ m ++ ")") ∧
    (jsIncludes m "network" = false → jsIncludes m "fetch" = false →
      jsIncludes m "timeout" = true →
      (translateSdkError (some m)).code = "TIMEOUT" ∧
      (translateSdkError (some m)).message =
        "Authentication request timed out." ++ " (Original: " ++ m ++ ")") ∧
    (jsIncludes m "network" = false → jsIncludes m "fetch" = false →
      jsIncludes m "timeout" = false →
      (jsIncludes m "invalid" = true ∨ jsIncludes m "validation" = true) →
      (translateSdkError (some m)).code = "INVALID_INPUT" ∧
      (translateSdkError (some m)).message =
        "Invalid request data provided." ++ " (Original: " ++ m ++ ")") ∧
    (jsIncludes m "network" = false → jsIncludes m "fetch" = false →
      jsIncludes m "timeout" = false → jsIncludes m "invalid" = false →
      jsIncludes m "validation" = false →
      (translateSdkError (some m)).code = "AUTH_FAILED" ∧
      (translateSdkError (some m)).message =
        "Authentication failed" ++ " (Original: " ++ m ++ ")") ∧
    (translateSdkError (some m)).name = "CorePasskeysError" ∧
    jsIncludes (translateSdkError (some m)).message m = true := by
  refine ⟨?_, ?_, ?_, ?_, rfl, translateSdkError_message_preserved m⟩
  · rintro (h | h) <;>
      simp [translateSdkError, sdkErrorClassification, optIncludes, mkCorePasskeysError,
        jsRender, h]
  · intro h1 h2 h3
    simp [translateSdkError, sdkErrorClassification, optIncludes, mkCorePasskeysError,
      jsRender, h1, h2, h3]
  · intro h1 h2 h3
    rintro (h4 | h4) <;>
      simp [translateSdkError, sdkErrorClassification, optIncludes, mkCorePasskeysError,
        jsRender, h1, h2, h3, h4]
  · intro h1 h2 h3 h4 h5
    simp [translateSdkError, sdkErrorClassification, optIncludes, mkCorePasskeysError,
      jsRender, h1, h2, h3, h4, h5]

theorem claim_C6_translateSdkError_classification_witness :
    (translateSdkError (some "network request failed")).code = "NETWORK_ERROR" ∧
    (translateSdkError (some "network request failed")).message =
      "Network error occurred during authentication." ++ " (Original: " ++
        "network request failed" ++ ")" :=
  (claim_C6_translateSdkError_classification "network request failed").1
    (Or.inl (by decide))

/-- C10: the substring classification of `translateSdkError` is checked in the
fixed order network/fetch, then timeout, then invalid/validation; a message
matching several categories gets the code of the earliest matching one, e.g.
both `network` and `timeout` yield `NETWORK_ERROR`. -/
theorem claim_C10_translateSdkError_precedence (m : String) :
    (translateSdkError (some m)).code =
      (if jsIncludes m "network" || jsIncludes m "fetch" then "NETWORK_ERROR"
       else if jsIncludes m "timeout" then "TIMEOUT"
       else if jsIncludes m "invalid" || jsIncludes m "validation" then "INVALID_INPUT"
       else "AUTH_FAILED") ∧
    (jsIncludes m "network" = true → jsIncludes m "timeout" = true →
      (translateSdkError (some m)).code = "NETWORK_ERROR") ∧
    (jsIncludes m "network" = false → jsIncludes m "fetch" = false →
      jsIncludes m "timeout" = true → jsIncludes m "invalid" = true →
      (translateSdkError (some m)).code = "TIMEOUT") := by
  refine ⟨?_, ?_, ?_⟩
  · by_cases h1 : (jsIncludes m "network" || jsIncludes m "fetch") = true <;>
    by_cases h2 : jsIncludes m "timeout" = true <;>
    by_cases h3 : (jsIncludes m "invalid" || jsIncludes m "validation") = true <;>
      simp [translateSdkError, sdkErrorClassification, optIncludes, mkCorePasskeysError,
        h1, h2, h3]
  · intro h1 h2
    simp [translateSdkError, sdkErrorClassification, optIncludes, mkCorePasskeysError, h1]
  · intro h1 h2 h3 h4
    simp [translateSdkError, sdkErrorClassification, optIncludes, mkCorePasskeysError,
      h1, h2, h3]

theorem claim_C10_translateSdkError_precedence_witness :
    (translateSdkError (some "network timeout")).code = "NETWORK_ERROR" :=
  (claim_C10_translateSdkError_precedence "network timeout").2.1 (by decide) (by decide)

/-- C7: both `mapBillingAddress` variants are total: on an absent input object
every output field is the documented default (empty string, except the
first-variant country code which defaults to `'US'`); a missing or empty
source field always yields the default, and a present non-empty field is
copied through. -/
theorem claim_C7_mapBillingAddress_totality
    (b : Option BillingAddressInput) (c : Option Customer) :
    mapBillingAddress none =
      { line1 := "", line2 := "", city := "", state := "", zip := "", countryCode := "" } ∧
    (b.bind BillingAddressInput.line1 = none → (mapBillingAddress b).line1 = "") ∧
    (b.bind BillingAddressInput.line2 = none → (mapBillingAddress b).line2 = "") ∧
    (b.bind BillingAddressInput.city = none → (mapBillingAddress b).city = "") ∧
    (b.bind BillingAddressInput.state = none → (mapBillingAddress b).state = "") ∧
    (b.bind BillingAddressInput.zip = none → (mapBillingAddress b).zip = "") ∧
    (b.bind BillingAddressInput.country = none → (mapBillingAddress b).countryCode = "") ∧
    (∀ s, b.bind BillingAddressInput.line1 = some s → s ≠ "" →
      (mapBillingAddress b).line1 = s) ∧
    mapBillingAddressV1 none =
      { name := "", line1 := "", line2 := "", state := "", zip := "", countryCode := "US" } ∧
    (c.bind Customer.billingAddress = none → c.bind Customer.address = none →
      (mapBillingAddressV1 c).countryCode = "US") := by
  refine ⟨rfl, ?_, ?_, ?_, ?_, ?_, ?_, ?_, by decide, ?_⟩
  all_goals intro h
  · simp [mapBillingAddress, jsOrStr, h]
  · simp [mapBillingAddress, jsOrStr, h]
  · simp [mapBillingAddress, jsOrStr, h]
  · simp [mapBillingAddress, jsOrStr, h]
  · simp [mapBillingAddress, jsOrStr, h]
  · simp [mapBillingAddress, jsOrStr, h]
  · intro hb hs
    simp [mapBillingAddress, jsOrStr, hb, hs]
  · intro h2
    simp [mapBillingAddressV1, jsOrStr, h, h2]

theorem claim_C7_mapBillingAddress_totality_witness :
    (mapBillingAddress (some
      { line1 := some "123 Main St", line2 := none, city := none, state := none,
        zip := none, country := none })).line2 = "" ∧
    (mapBillingAddress (some
      { line1 := some "123 Main St", line2 := none, city := none, state := none,
        zip := none, country := none })).line1 = "123 Main St" ∧
    (mapBillingAddressV1 (some
      { billingName := none, firstName := none, lastName := none,
        billingAddress := none, address := none })).countryCode = "US" := by
  have h1 := claim_C7_mapBillingAddress_totality (some
    { line1 := some "123 Main St", line2 := none, city := none, state := none,
      zip := none, country := none }) (some
    { billingName := none, firstName := none, lastName := none,
      billingAddress := none, address := none })
  exact ⟨h1.2.2.1 rfl, h1.2.2.2.2.2.2.2.1 "123 Main St" rfl (by decide),
    h1.2.2.2.2.2.2.2.2.2 rfl rfl⟩

/-- A concrete `coreData` value with every field absent. -/
def sampleCoreData : CoreData :=
  { unifiedServiceId := none, unifiedClientId := none, unifiedTokenId := none
    merchantInfo := none, billingAddress := none, authMethod := none, authReason := none
    amount := none, acquirerMerchantId := none, acquirerBIN := none
    merchantCategoryCode := none, merchantCountryCode := none }

/-- C1 (amended): calling `authenticate` while the wrapper is uninitialized
throws a `CorePasskeysError` whose message identifies the not-initialized
condition and whose code is the constructor default `"UNKNOWN_ERROR"`, and no
SDK method is ever invoked. -/
theorem claim_C1_authenticate_uninitialized (σ : Type) (sdk : Option σ)
    (sdkAuth : σ → MastercardPayload → Except (Option String) SdkResponse)
    (uuid1 uuid2 : String) (coreData : CoreData) :
    authenticate σ false sdk sdkAuth uuid1 uuid2 coreData =
      (Except.error (JsError.core
        { name := "CorePasskeysError"
          message := "CorePasskeysWrapper not initialized. Please call init() first."
          code := "UNKNOWN_ERROR" }), false) := rfl

/-- C1 counterexample: at a concrete input, the error thrown by an
uninitialized `authenticate` carries the constructor-default code
`"UNKNOWN_ERROR"` — the very code any `CorePasskeysError` built without an
explicit code gets — so its code does not identify the not-initialized
condition as the claim states. -/
theorem claim_C1_code_is_default_counterexample :
    (authenticate Unit false none (fun _ _ => Except.error none) "u1" "u2"
        sampleCoreData).1 =
      Except.error (JsError.core (mkCorePasskeysError
        "CorePasskeysWrapper not initialized. Please call init() first." none)) ∧
    (mkCorePasskeysError
      "CorePasskeysWrapper not initialized. Please call init() first." none).code =
      "UNKNOWN_ERROR" ∧
    (mkCorePasskeysError "some unrelated failure" none).code = "UNKNOWN_ERROR" :=
  ⟨rfl, rfl, rfl⟩

/-- C9: the wrapper's only state is the boolean `isInitialized` flag (plus the
cached handle): `init` on a `Ready` wrapper is a no-op that leaves the state
untouched; a failing `initMastercardSdk` propagates its error and leaves the
flag unset, so `isReady()` is still `false`; the flag is set exactly by a
successful `init`, and after a failure a second `init` retries from
`Uninitialized` and can succeed. -/
theorem claim_C9_init_state_machine (σ : Type) (world world2 : SdkWorld σ)
    (st : WrapperState σ) (config config2 : WrapperConfig) :
    (st.isInitialized = true → init σ world st config = (Except.ok (), st)) ∧
    (∀ m, st.isInitialized = false → st.checkoutSdk = none → world.windowSdk = none →
      world.loadOutcome = Except.error m →
      (init σ world st config).1 = Except.error m ∧
      isReady σ (init σ world st config).2 = false) ∧
    (∀ w, st.isInitialized = false → world.loadOutcome = Except.ok w →
      (init σ world st config).1 = Except.ok () ∧
      isReady σ (init σ world st config).2 = true) ∧
    (∀ m w, st.isInitialized = false → st.checkoutSdk = none → world.windowSdk = none →
      world.loadOutcome = Except.error m → world2.loadOutcome = Except.ok w →
      isReady σ (init σ world2 (init σ world st config).2 config2).2 = true) := by
  obtain ⟨flag, cached, envr⟩ := st
  refine ⟨?_, ?_, ?_, ?_⟩
  · intro h
    simp only at h
    simp [init, h]
  · intro m h1 h2 h3 h4
    simp only at h1 h2
    simp [init, initMastercardSdk, isReady, h1, h2, h3, h4]
  · intro w h1 h2
    simp only at h1
    cases cached with
    | some s => simp [init, initMastercardSdk, isReady, h1]
    | none =>
        cases hw : world.windowSdk with
        | some s => simp [init, initMastercardSdk, isReady, h1, hw]
        | none => simp [init, initMastercardSdk, isReady, h1, hw, h2]
  · intro m w h1 h2 h3 h4 h5
    simp only at h1 h2
    cases hw2 : world2.windowSdk with
    | some s =>
        simp [init, initMastercardSdk, isReady, h1, h2, h3, h4, hw2]
    | none =>
        simp [init, initMastercardSdk, isReady, h1, h2, h3, h4, h5, hw2]

theorem claim_C9_init_state_machine_witness :
    (init Unit { windowSdk := none, loadOutcome := Except.error "script load failed" }
      (initialWrapperState Unit) { environment := some "sandbox", locale := none }).1 =
      Except.error "script load failed" ∧
    isReady Unit (init Unit
      { windowSdk := none, loadOutcome := Except.error "script load failed" }
      (initialWrapperState Unit) { environment := some "sandbox", locale := none }).2 =
      false ∧
    isReady Unit (init Unit { windowSdk := none, loadOutcome := Except.ok (some ()) }
      (init Unit { windowSdk := none, loadOutcome := Except.error "script load failed" }
        (initialWrapperState Unit) { environment := some "sandbox", locale := none }).2
      { environment := some "sandbox", locale := none }).2 = true := by
  have h := claim_C9_init_state_machine Unit
    { windowSdk := none, loadOutcome := Except.error "script load failed" }
    { windowSdk := none, loadOutcome := Except.ok (some ()) }
    (initialWrapperState Unit) { environment := some "sandbox", locale := none }
    { environment := some "sandbox", locale := none }
  have h2 := h.2.1 "script load failed" rfl rfl rfl rfl
  exact ⟨h2.1, h2.2, h.2.2.2 "script load failed" (some ()) rfl rfl rfl rfl rfl⟩

/-- The trace of the fetch-and-authenticate tail of `executeAuthenticate`
always records that the Core API client was invoked, and carries the
`initCalled` flag it was given. -/
theorem fetchThenAuthenticate_trace (σ : Type) (net : String → FetchOutcome CoreData)
    (sdkAuth : σ → MastercardPayload → Except (Option String) SdkResponse)
    (uuid1 uuid2 : String) (st : WrapperState σ) (params : ExecParams) (ic : Bool) :
    (fetchThenAuthenticate σ net sdkAuth uuid1 uuid2 st params ic).2.2.initCalled = ic ∧
    (fetchThenAuthenticate σ net sdkAuth uuid1 uuid2 st params ic).2.2.coreApiCalled = true := by
  unfold fetchThenAuthenticate
  rcases getTokenBrandInfo CoreData st.environment
    { managerCode := params.managerCode
      merchantCode := params.merchantCode
      tokenCode := params.tokenCode } net with ⟨res, url⟩
  cases res with
  | error e => simp
  | ok coreData =>
      rcases authenticate σ st.isInitialized st.checkoutSdk sdkAuth uuid1 uuid2
        (mergeCoreData coreData params) with ⟨r, called⟩
      simp

/-- C8: on an uninitialized wrapper, `executeAuthenticate` calls `init` first;
when `init` fails its error propagates unchanged and neither the Core API nor
the SDK is ever invoked; when `init` succeeds the flow proceeds to the Core
API fetch. -/
theorem claim_C8_executeAuthenticate_init_first (σ : Type) (world : SdkWorld σ)
    (net : String → FetchOutcome CoreData)
    (sdkAuth : σ → MastercardPayload → Except (Option String) SdkResponse)
    (uuid1 uuid2 : String) (st : WrapperState σ) (params : ExecParams)
    (config : WrapperConfig) (h : st.isInitialized = false) :
    (executeAuthenticate σ world net sdkAuth uuid1 uuid2 st params config).2.2.initCalled =
      true ∧
    (∀ m, st.checkoutSdk = none → world.windowSdk = none →
      world.loadOutcome = Except.error m →
      (executeAuthenticate σ world net sdkAuth uuid1 uuid2 st params config).1 =
        Except.error (JsError.generic m) ∧
      (executeAuthenticate σ world net sdkAuth uuid1 uuid2 st params config).2.2.coreApiCalled =
        false ∧
      (executeAuthenticate σ world net sdkAuth uuid1 uuid2 st params config).2.2.sdkCalled =
        false) ∧
    (∀ u, (init σ world st config).1 = Except.ok u →
      (executeAuthenticate σ world net sdkAuth uuid1 uuid2 st params config).2.2.coreApiCalled =
        true) := by
  refine ⟨?_, ?_, ?_⟩
  · rcases hi : init σ world st config with ⟨res, st1⟩
    cases res with
    | error e => simp [executeAuthenticate, h, hi]
    | ok u =>
        simp [executeAuthenticate, h, hi]
        exact (fetchThenAuthenticate_trace σ net sdkAuth uuid1 uuid2 st1 params true).1
  · intro m hc hw hl
    obtain ⟨flag, cached, envr⟩ := st
    simp only at h hc
    simp [executeAuthenticate, init, initMastercardSdk, h, hc, hw, hl]
  · intro u hu
    rcases hi : init σ world st config with ⟨res, st1⟩
    rw [hi] at hu
    simp only at hu
    cases res with
    | error e => exact absurd hu (by simp)
    | ok v =>
        simp [executeAuthenticate, h, hi]
        exact (fetchThenAuthenticate_trace σ net sdkAuth uuid1 uuid2 st1 params true).2

/-- A concrete `params` object for `executeAuthenticate`. -/
def sampleExecParams : ExecParams :=
  { managerCode := some "azul", merchantCode := some "m-1", tokenCode := some "t-1"
    authMethod := some "passkey", authReason := some "payment"
    amount := some { value := "99.99", currency := some "USD" }
    acquirerMerchantId := some "550e8400", acquirerBIN := some "444444"
    merchantCategoryCode := some "5734", merchantCountryCode := some "US" }

theorem claim_C8_executeAuthenticate_init_first_witness :
    (executeAuthenticate Unit { windowSdk := none, loadOutcome := Except.error "load failed" }
      (fun _ => FetchOutcome.transportFailure "unreachable")
      (fun _ _ => Except.error none) "u1" "u2" (initialWrapperState Unit) sampleExecParams
      { environment := some "sandbox", locale := none }).1 =
      Except.error (JsError.generic "load failed") ∧
    (executeAuthenticate Unit { windowSdk := none, loadOutcome := Except.error "load failed" }
      (fun _ => FetchOutcome.transportFailure "unreachable")
      (fun _ _ => Except.error none) "u1" "u2" (initialWrapperState Unit) sampleExecParams
      { environment := some "sandbox", locale := none }).2.2.coreApiCalled = false := by
  have h := claim_C8_executeAuthenticate_init_first Unit
    { windowSdk := none, loadOutcome := Except.error "load failed" }
    (fun _ => FetchOutcome.transportFailure "unreachable")
    (fun _ _ => Except.error none) "u1" "u2" (initialWrapperState Unit) sampleExecParams
    { environment := some "sandbox", locale := none } rfl
  have h2 := h.2.1 "load failed" rfl rfl rfl
  exact ⟨h2.1, h2.2.1⟩

end PasskeysWrapper
